import Mathlib

/-!
Shallow embedding of two decision engines of the sentry repository:

* `src/sentry/discover/dataset_split.py` — the dataset-split classifier for
  saved Discover queries (field heuristics, probe fallback, persistence).
* `src/sentry/issues/issue_velocity.py` — the issue-velocity threshold engine
  (rate aggregation query, cache update, staleness-checked lookup).

Pure Python functions become Lean functions; the effectful orchestration
(`get_and_save_split_decision_for_query`, `update_threshold`,
`get_latest_threshold`) is embedded with its external collaborators — probe
query outcomes, the result of the snuba aggregation, the cache contents and
the distributed lock — passed in explicitly, and its effects (the persisted
record, the values written to the cache, the logged labels) returned
explicitly.
-/

namespace Sentry

/-! ## Data model for the dataset-split classifier -/

/-- The dataset enum members of `sentry.snuba.dataset.Dataset` used by
`dataset_split.py`. -/
inductive Dataset
  | Events
  | Transactions
  | Discover
  | IssuePlatform
deriving DecidableEq, Repr

/-- Saved-query dataset labels, `sentry.discover.models.DiscoverSavedQueryTypes`. -/
inductive DiscoverSavedQueryTypes
  | DISCOVER
  | ERROR_EVENTS
  | TRANSACTION_LIKE
deriving DecidableEq, Repr

/-- Dataset-source provenance tags, `sentry.discover.models.DatasetSourcesTypes`. -/
inductive DatasetSourcesTypes
  | UNKNOWN
  | INFERRED
  | USER
  | FORCED
deriving DecidableEq, Repr

/-- Comparison operators of `snuba_sdk.Op` that can appear in a condition. -/
inductive SnOp
  | EQ
  | NEQ
  | GT
  | GTE
  | LT
  | LTE
  | IN
  | NOT_IN
  | LIKE
  | NOT_LIKE
deriving DecidableEq, Repr

/-- Right-hand sides of conditions: string or integer literals, or any other
value shape (lists, floats, ...), which the classifier never matches on. -/
inductive Rhs
  | str (s : String)
  | int (n : Int)
  | other
deriving DecidableEq, Repr

/-- Positional parameters of a `snuba_sdk` function call, as far as the
classifier distinguishes them: `check_function_parameter_matches_dataset`
tests `isinstance(parameter, Column)` and nothing else, so every non-column
parameter shape (literal, nested function, ...) behaves identically and is
collapsed into `other`. -/
inductive FnParameter
  | column (name : String)
  | other
deriving DecidableEq, Repr

/-- Expression shapes inspected by the classifier: `snuba_sdk` columns,
functions and curried functions (with their positional parameter lists),
aliased expressions (whose underlying expression is a column, accessed as
`aliased_exp.exp.name` in the source), and any other shape. -/
inductive Expr
  | column (name : String)
  | function (name : String) (parameters : List FnParameter)
  | curriedFunction (name : String) (parameters : List FnParameter)
  | aliasedExpression (expName : String) (aliasName : String)
  | other
deriving DecidableEq, Repr

/-- Entries of a query builder where-clause: a `snuba_sdk.Condition`
(lhs, op, rhs), an `And` or `Or` node with its list of children, or any
other node shape. -/
inductive WhereClause
  | condition (lhs : Expr) (op : SnOp) (rhs : Rhs)
  | and_ (conditions : List WhereClause)
  | or_ (conditions : List WhereClause)
  | other

/- Decidable equality on where-clauses, by mutual structural recursion with
equality of child lists. -/
mutual

def WhereClause.deq : (a b : WhereClause) → Decidable (a = b)
  | .condition l1 o1 r1, .condition l2 o2 r2 =>
      match decEq l1 l2, decEq o1 o2, decEq r1 r2 with
      | isTrue h1, isTrue h2, isTrue h3 => isTrue (by rw [h1, h2, h3])
      | isFalse h, _, _ => isFalse (by intro he; cases he; exact h rfl)
      | _, isFalse h, _ => isFalse (by intro he; cases he; exact h rfl)
      | _, _, isFalse h => isFalse (by intro he; cases he; exact h rfl)
  | .and_ cs1, .and_ cs2 =>
      match WhereClause.deqList cs1 cs2 with
      | isTrue h => isTrue (by rw [h])
      | isFalse h => isFalse (by intro he; cases he; exact h rfl)
  | .or_ cs1, .or_ cs2 =>
      match WhereClause.deqList cs1 cs2 with
      | isTrue h => isTrue (by rw [h])
      | isFalse h => isFalse (by intro he; cases he; exact h rfl)
  | .other, .other => isTrue rfl
  | .condition _ _ _, .and_ _ => isFalse (fun h => WhereClause.noConfusion h)
  | .condition _ _ _, .or_ _ => isFalse (fun h => WhereClause.noConfusion h)
  | .condition _ _ _, .other => isFalse (fun h => WhereClause.noConfusion h)
  | .and_ _, .condition _ _ _ => isFalse (fun h => WhereClause.noConfusion h)
  | .and_ _, .or_ _ => isFalse (fun h => WhereClause.noConfusion h)
  | .and_ _, .other => isFalse (fun h => WhereClause.noConfusion h)
  | .or_ _, .condition _ _ _ => isFalse (fun h => WhereClause.noConfusion h)
  | .or_ _, .and_ _ => isFalse (fun h => WhereClause.noConfusion h)
  | .or_ _, .other => isFalse (fun h => WhereClause.noConfusion h)
  | .other, .condition _ _ _ => isFalse (fun h => WhereClause.noConfusion h)
  | .other, .and_ _ => isFalse (fun h => WhereClause.noConfusion h)
  | .other, .or_ _ => isFalse (fun h => WhereClause.noConfusion h)

def WhereClause.deqList : (a b : List WhereClause) → Decidable (a = b)
  | [], [] => isTrue rfl
  | [], _ :: _ => isFalse (fun h => List.noConfusion h)
  | _ :: _, [] => isFalse (fun h => List.noConfusion h)
  | a :: as, b :: bs =>
      match WhereClause.deq a b, WhereClause.deqList as bs with
      | isTrue h1, isTrue h2 => isTrue (by rw [h1, h2])
      | isFalse h, _ => isFalse (by intro he; cases he; exact h rfl)
      | _, isFalse h => isFalse (by intro he; cases he; exact h rfl)

end

instance : DecidableEq WhereClause := WhereClause.deq

/-- The slice of an `ErrorsQueryBuilder` / `DiscoverQueryBuilder` that the
classifier reads: the parsed where-clause (`builder.where`) and the selected
columns (`builder.columns`). Both builders are constructed from the same
filter string and field list of the saved query. -/
structure QueryBuilder where
  whereList : List WhereClause
  columns : List Expr
deriving DecidableEq

/-- `TRANSACTION_ONLY_FIELDS` from dataset_split.py lines 24-52. -/
def TRANSACTION_ONLY_FIELDS : List String :=
  [ "duration"
  , "transaction_op"
  , "transaction_status"
  , "measurements[lcp]"
  , "measurements[cls]"
  , "measurements[fcp]"
  , "measurements[fid]"
  , "measurements[inp]"
  , "measurements[ttfb]"
  , "measurements[app_start_cold]"
  , "measurements[app_start_warm]"
  , "measurements[frames_total]"
  , "measurements[frames_slow]"
  , "measurements[frames_frozen]"
  , "measurements[frames_slow_rate]"
  , "measurements[frames_frozen_rate]"
  , "measurements[stall_count]"
  , "measurements[stall_total_time]"
  , "measurements[stall_longest_time]"
  , "measurements[stall_percentage]"
  , "measurements[time_to_full_display]"
  , "measurements[time_to_initial_display]"
  , "span_op_breakdowns[ops.browser]"
  , "span_op_breakdowns[ops.http]"
  , "span_op_breakdowns[ops.db]"
  , "span_op_breakdowns[ops.resource]"
  , "span_op_breakdowns[ops.ui]"
  ]

/-- `ERROR_ONLY_FIELDS` from dataset_split.py lines 54-71. -/
def ERROR_ONLY_FIELDS : List String :=
  [ "location"
  , "exception_stacks.type"
  , "exception_stacks.value"
  , "exception_stacks.mechanism_type"
  , "exception_stacks.mechanism_handled"
  , "received"
  , "exception_main_thread"
  , "exception_frames.abs_path"
  , "exception_frames.colno"
  , "exception_frames.filename"
  , "exception_frames.function"
  , "exception_frames.in_app"
  , "exception_frames.lineno"
  , "exception_frames.module"
  , "exception_frames.package"
  , "exception_frames.stack_level"
  ]

/-- `check_function_parameter_matches_dataset` (lines 87-96): true iff some
positional parameter is a column whose name lies in the exclusive field set
selected by the dataset hint. -/
def check_function_parameter_matches_dataset
    (parameters : List FnParameter) (dataset : Dataset) : Bool :=
  let fields :=
    if dataset = Dataset.Transactions then TRANSACTION_ONLY_FIELDS else ERROR_ONLY_FIELDS
  parameters.any fun parameter =>
    match parameter with
    | FnParameter.column name => decide (name ∈ fields)
    | _ => false

/-- `check_aliased_expression_matches_dataset` (lines 99-108): membership test
on the aliased expression underlying column name. -/
def check_aliased_expression_matches_dataset
    (expName : String) (dataset : Dataset) : Bool :=
  let fields :=
    if dataset = Dataset.Transactions then TRANSACTION_ONLY_FIELDS else ERROR_ONLY_FIELDS
  decide (expName ∈ fields)

/-- `check_column_matches_dataset` (lines 111-120): membership test on the
column name. -/
def check_column_matches_dataset (name : String) (dataset : Dataset) : Bool :=
  let fields :=
    if dataset = Dataset.Transactions then TRANSACTION_ONLY_FIELDS else ERROR_ONLY_FIELDS
  decide (name ∈ fields)

/-- `check_event_type_condition` (lines 123-134): the special case for a
condition on the discriminator column named type. The caller has already
checked that the lhs column name is type; only op, rhs and the dataset hint
are inspected here. -/
def check_event_type_condition (op : SnOp) (rhs : Rhs) (dataset : Dataset) : Bool :=
  if dataset = Dataset.Events ∧
      ((op = SnOp.EQ ∧ rhs = Rhs.str "error") ∨ (op = SnOp.NEQ ∧ rhs = Rhs.str "transaction")) then
    true
  else if dataset = Dataset.Transactions ∧ op = SnOp.EQ ∧ rhs = Rhs.str "transaction" then
    true
  else
    false

/-- `check_condition_matches_dataset` (lines 137-151): dispatch on the lhs
shape; column lhs named type goes to the event-type special case, other
columns to the membership test, functions to the parameter scan, and every
other shape returns false. -/
def check_condition_matches_dataset
    (lhs : Expr) (op : SnOp) (rhs : Rhs) (dataset : Dataset) : Bool :=
  match lhs with
  | Expr.column name =>
      if name = "type" then check_event_type_condition op rhs dataset
      else check_column_matches_dataset name dataset
  | Expr.function _ parameters => check_function_parameter_matches_dataset parameters dataset
  | Expr.curriedFunction _ parameters => check_function_parameter_matches_dataset parameters dataset
  | _ => false

/-- Whether a where-clause entry is a `Condition` node that matches the
dataset (the `isinstance(cond, Condition)` guard followed by
`check_condition_matches_dataset` in the two loops of lines 154-171). -/
def condition_entry_matches (c : WhereClause) (dataset : Dataset) : Bool :=
  match c with
  | WhereClause.condition lhs op rhs => check_condition_matches_dataset lhs op rhs dataset
  | _ => false

/-- Whether a where-clause entry is a `snuba_sdk.Condition` node (the shape
tested by `isinstance(cond, Condition)` in the source). -/
def is_condition_node : WhereClause → Bool
  | WhereClause.condition _ _ _ => true
  | _ => false

/-- The children contributed by an `And` or `Or` node to the
`top_level_conditions` list (lines 160-161); other shapes contribute none. -/
def direct_boolean_children : WhereClause → List WhereClause
  | WhereClause.and_ conditions => conditions
  | WhereClause.or_ conditions => conditions
  | _ => []

/-- `check_top_level_conditions_match_dataset` (lines 154-171): the first loop
scans the top-level entries of `builder.where`, returning true at the first
matching `Condition` while collecting the direct children of every `And` and
`Or`; the second loop scans the collected depth-1 children the same way.
The boolean value is the disjunction of the two scans. -/
def check_top_level_conditions_match_dataset
    (builder : QueryBuilder) (dataset : Dataset) : Bool :=
  (builder.whereList.any fun cond => condition_entry_matches cond dataset)
    || ((builder.whereList.flatMap direct_boolean_children).any fun cond =>
          condition_entry_matches cond dataset)

/-- `check_selected_columns_match_dataset` (lines 174-191): scan
`builder.columns`, dispatching on shape; unmatched shapes are skipped. -/
def check_selected_columns_match_dataset
    (builder : QueryBuilder) (dataset : Dataset) : Bool :=
  builder.columns.any fun select_col =>
    match select_col with
    | Expr.column name => check_column_matches_dataset name dataset
    | Expr.aliasedExpression expName _ => check_aliased_expression_matches_dataset expName dataset
    | Expr.function _ parameters => check_function_parameter_matches_dataset parameters dataset
    | Expr.curriedFunction _ parameters => check_function_parameter_matches_dataset parameters dataset
    | _ => false

/-- `dataset_split_decision_inferred_from_query` (lines 194-213): the strict
four-step heuristic chain, biased towards the Errors dataset, returning none
when no step matches. -/
def dataset_split_decision_inferred_from_query
    (errors_builder transactions_builder : QueryBuilder) :
    Option DiscoverSavedQueryTypes :=
  if check_top_level_conditions_match_dataset errors_builder Dataset.Events then
    some DiscoverSavedQueryTypes.ERROR_EVENTS
  else if check_selected_columns_match_dataset errors_builder Dataset.Events then
    some DiscoverSavedQueryTypes.ERROR_EVENTS
  else if check_top_level_conditions_match_dataset transactions_builder Dataset.Transactions then
    some DiscoverSavedQueryTypes.TRANSACTION_LIKE
  else if check_selected_columns_match_dataset transactions_builder Dataset.Transactions then
    some DiscoverSavedQueryTypes.TRANSACTION_LIKE
  else
    none

/-! ## Persistence and the probe fallback -/

/-- The two mutable fields of a `DiscoverSavedQuery` record that the
classifier writes: the dataset label and its provenance. -/
structure SavedQueryRecord where
  dataset : DiscoverSavedQueryTypes
  dataset_source : DatasetSourcesTypes
deriving DecidableEq, Repr

/-- `save_split_decision_for_query` (lines 74-84): set the dataset field when
a split decision is given, set the provenance field when a source is given,
then save the record. The returned record is the persisted state. -/
def save_split_decision_for_query
    (saved_query : SavedQueryRecord)
    (split_decision : Option DiscoverSavedQueryTypes)
    (dataset_source : Option DatasetSourcesTypes) : SavedQueryRecord :=
  { dataset :=
      match split_decision with
      | some d => d
      | none => saved_query.dataset
    dataset_source :=
      match dataset_source with
      | some s => s
      | none => saved_query.dataset_source }

/-- Outcome of running one probe query (`run_query` + `process_results`):
either a result with a row count, or one of the two engine failures caught
at lines 330 and 354 (`snuba.QueryIllegalTypeOfArgument`,
`snuba.UnqualifiedQueryError`). -/
inductive ProbeResult
  | rows (n : Nat)
  | queryIllegalTypeOfArgument
  | unqualifiedQueryError
deriving DecidableEq, Repr

/-- The `has_errors` / `has_transactions` computation (lines 322-331 and
346-355): the flag starts false, becomes `len(results.data) > 0` on success,
and stays false when the probe raises one of the two caught failures. -/
def probe_has_data : ProbeResult → Bool
  | ProbeResult.rows n => decide (0 < n)
  | ProbeResult.queryIllegalTypeOfArgument => false
  | ProbeResult.unqualifiedQueryError => false

/-- Everything observable about one run of
`get_and_save_split_decision_for_query`: the returned label, the returned
boolean (false exactly on the heuristic path, true on every probe path), the
saved-query record after the run, and the labels written to the log. -/
structure SplitRunResult where
  decision : DiscoverSavedQueryTypes
  probed : Bool
  saved_query : SavedQueryRecord
  logged : List DiscoverSavedQueryTypes
deriving DecidableEq, Repr

/-- `get_and_save_split_decision_for_query` (lines 270-384). The two builders
are constructed from the same saved-query filter and fields; the outcomes of
the two probe queries are passed in as `error_probe` and `transaction_probe`
(the transaction probe is only consulted when the error probe produced no
data, as in the source). On each branch: a dry run only logs the label, a
live run persists label and provenance via `save_split_decision_for_query`.
On the forced-default branch the source logs
`DiscoverSavedQueryTypes.TRANSACTION_LIKE` (line 375) but persists and
returns `ERROR_EVENTS` (lines 378-384). -/
def get_and_save_split_decision_for_query
    (errors_builder transactions_builder : QueryBuilder)
    (saved_query : SavedQueryRecord)
    (error_probe transaction_probe : ProbeResult)
    (dry_run : Bool) : SplitRunResult :=
  match dataset_split_decision_inferred_from_query errors_builder transactions_builder with
  | some dataset_inferred_from_query =>
      if dry_run then
        { decision := dataset_inferred_from_query
          probed := false
          saved_query := saved_query
          logged := [dataset_inferred_from_query] }
      else
        { decision := dataset_inferred_from_query
          probed := false
          saved_query :=
            save_split_decision_for_query saved_query
              (some dataset_inferred_from_query) (some DatasetSourcesTypes.INFERRED)
          logged := [] }
  | none =>
      let has_errors := probe_has_data error_probe
      if has_errors then
        if dry_run then
          { decision := DiscoverSavedQueryTypes.ERROR_EVENTS
            probed := true
            saved_query := saved_query
            logged := [DiscoverSavedQueryTypes.ERROR_EVENTS] }
        else
          { decision := DiscoverSavedQueryTypes.ERROR_EVENTS
            probed := true
            saved_query :=
              save_split_decision_for_query saved_query
                (some DiscoverSavedQueryTypes.ERROR_EVENTS) (some DatasetSourcesTypes.INFERRED)
            logged := [] }
      else
        let has_transactions := probe_has_data transaction_probe
        if has_transactions then
          if dry_run then
            { decision := DiscoverSavedQueryTypes.TRANSACTION_LIKE
              probed := true
              saved_query := saved_query
              logged := [DiscoverSavedQueryTypes.TRANSACTION_LIKE] }
          else
            { decision := DiscoverSavedQueryTypes.TRANSACTION_LIKE
              probed := true
              saved_query :=
                save_split_decision_for_query saved_query
                  (some DiscoverSavedQueryTypes.TRANSACTION_LIKE)
                  (some DatasetSourcesTypes.INFERRED)
              logged := [] }
        else
          if dry_run then
            { decision := DiscoverSavedQueryTypes.ERROR_EVENTS
              probed := true
              saved_query := saved_query
              logged := [DiscoverSavedQueryTypes.TRANSACTION_LIKE] }
          else
            { decision := DiscoverSavedQueryTypes.ERROR_EVENTS
              probed := true
              saved_query :=
                save_split_decision_for_query saved_query
                  (some DiscoverSavedQueryTypes.ERROR_EVENTS) (some DatasetSourcesTypes.FORCED)
              logged := [] }

/-! ## Issue velocity threshold engine (issue_velocity.py) -/

/-- `WEEK_IN_HOURS = 7 * 24` (line 42). -/
def WEEK_IN_HOURS : Nat := 7 * 24

/-- `DEFAULT_TTL = 48 * 60 * 60` (line 45), in seconds. -/
def DEFAULT_TTL : Nat := 48 * 60 * 60

/-- `NONE_TTL = 10 * 60` (line 46), in seconds. -/
def NONE_TTL : Nat := 10 * 60

/-- One event row of the IssuePlatform entity, with its timestamp in seconds
(timestamps are datetimes; seconds-since-epoch as an integer). -/
structure IssuePlatformEvent where
  project_id : Nat
  group_id : Nat
  timestamp : Int
deriving DecidableEq, Repr

/-- ClickHouse `dateDiff(hour, t1, t2)`: both datetimes are truncated to the
hour and the number of hour boundaries between them is returned. With
timestamps in seconds and a positive divisor, integer division `/` on `Int`
rounds towards negative infinity, matching the truncation. -/
def dateDiffHour (t1 t2 : Int) : Int :=
  t2 / 3600 - t1 / 3600

/-- One row produced by the inner aggregation query of `calculate_threshold`:
the group id, the aggregates `first_seen` (min timestamp),
`past_week_event_count` (countIf timestamp within the trailing week) and
`hourly_event_rate`. -/
structure RateRow where
  group_id : Nat
  first_seen : Int
  past_week_event_count : Nat
  hourly_event_rate : ℚ
deriving DecidableEq, Repr

/-- Comparison used to embed `orderby=[OrderBy(Column("first_seen"), ASC)]`. -/
def rateRowLE (a b : RateRow) : Prop := a.first_seen ≤ b.first_seen

instance : DecidableRel rateRowLE := fun a b => Int.decLe a.first_seen b.first_seen

instance : IsTotal RateRow rateRowLE := ⟨fun a b => le_total a.first_seen b.first_seen⟩

instance : IsTrans RateRow rateRowLE := ⟨fun _ _ _ hab hbc => le_trans hab hbc⟩

/-- The where-clause of the inner aggregation query of `calculate_threshold`
(issue_velocity.py lines 98-104): `timestamp >= ninety_days_ago`,
`timestamp < now`, `project_id == project.id`. -/
def subquery_where_filter
    (events : List IssuePlatformEvent) (project_id : Nat) (now : Int) :
    List IssuePlatformEvent :=
  let ninety_days_ago := now - 90 * 86400
  events.filter fun e =>
    decide (ninety_days_ago ≤ e.timestamp) && decide (e.timestamp < now)
      && decide (e.project_id = project_id)

/-- The aggregation for one group of the inner query (lines 65-112): over
the timestamps of the group inside the where-filtered table, select
`first_seen = min(timestamp)`,
`past_week_event_count = countIf(timestamp >= one_week_ago)` and
`hourly_event_rate = if(first_seen < one_week_ago,
past_week_event_count / WEEK_IN_HOURS,
past_week_event_count / dateDiff(hour, first_seen, now))`; the row survives
the having clause iff `past_week_event_count > 1` and
`first_seen < one_hour_ago`. -/
def subquery_group_row
    (events : List IssuePlatformEvent) (project_id : Nat) (now : Int)
    (g : Nat) : Option RateRow :=
  let one_hour_ago := now - 3600
  let one_week_ago := now - 7 * 86400
  match ((subquery_where_filter events project_id now).filter
      (fun e => e.group_id = g)).map (fun e => e.timestamp) with
  | [] => none
  | t :: ts =>
      let first_seen := ts.foldl min t
      let past_week_event_count :=
        ((t :: ts).filter (fun u => decide (one_week_ago ≤ u))).length
      let hourly_event_rate : ℚ :=
        if first_seen < one_week_ago then
          (past_week_event_count : ℚ) / (WEEK_IN_HOURS : ℚ)
        else
          (past_week_event_count : ℚ) / ((dateDiffHour first_seen now : Int) : ℚ)
      if 1 < past_week_event_count ∧ first_seen < one_hour_ago then
        some { group_id := g
               first_seen := first_seen
               past_week_event_count := past_week_event_count
               hourly_event_rate := hourly_event_rate }
      else
        none

/-- Denotation of the inner aggregation query built in `calculate_threshold`
(issue_velocity.py lines 63-115) over a table of IssuePlatform events:
where-filter, group by `group_id`, per-group aggregates and having clause,
order by `first_seen` ascending, limit 10000. -/
def threshold_subquery_rows
    (events : List IssuePlatformEvent) (project_id : Nat) (now : Int) :
    List RateRow :=
  let group_ids :=
    ((subquery_where_filter events project_id now).map (fun e => e.group_id)).dedup
  (List.insertionSort rateRowLE
      (group_ids.filterMap (subquery_group_row events project_id now))).take 10000

/-- A Python `datetime`: `strftime "%Y%m%d"` reads only the date fields, so
the time-of-day fields are irrelevant to `convert_date_to_int` and omitted. -/
structure PyDatetime where
  year : Nat
  month : Nat
  day : Nat
deriving DecidableEq, Repr

/-- `convert_date_to_int` (lines 215-216): `int(date.strftime("%Y%m%d"))`.
For a valid date with a four-digit year, `%Y` yields the four year digits and
`%m`, `%d` the zero-padded two-digit month and day, so the parsed integer is
`year * 10000 + month * 100 + day`. -/
def convert_date_to_int (date : PyDatetime) : Nat :=
  date.year * 10000 + date.month * 100 + date.day

/-- Day-granularity calendar order on dates: year, then month, then day. -/
def dateBefore (d1 d2 : PyDatetime) : Prop :=
  d1.year < d2.year
    ∨ (d1.year = d2.year
        ∧ (d1.month < d2.month ∨ (d1.month = d2.month ∧ d1.day < d2.day)))

/-- A Python float as it appears in the threshold computation: NaN (the
quantile of an empty or degenerate distribution) or a numeric value. -/
inductive PyFloat
  | nan
  | val (q : ℚ)
deriving DecidableEq, Repr

/-- The two cache writes performed by the redis pipeline of
`update_threshold` (lines 169-172): each key is set with an expiry. -/
structure ThresholdStore where
  threshold_value : ℚ
  threshold_ttl : Nat
  stale_date_value : Nat
  stale_date_ttl : Nat
deriving DecidableEq, Repr

/-- `update_threshold` (lines 150-174). The outcome of `calculate_threshold`
is passed in as `calculated` (`none` when the query produced nothing, NaN or
a number otherwise); `utcnow` is the recomputation date. Returns the pipeline
writes and the returned threshold. Mirrors the source: `ttl` starts at
`DEFAULT_TTL`; when `calculated` is None the threshold becomes 0 and the ttl
`NONE_TTL`; when it is NaN the threshold becomes 0 with the ttl unchanged;
both keys are set with the same `ex=ttl`. -/
def update_threshold (calculated : Option PyFloat) (utcnow : PyDatetime) :
    ThresholdStore × ℚ :=
  let ttl := DEFAULT_TTL
  match calculated with
  | none =>
      ({ threshold_value := 0
         threshold_ttl := NONE_TTL
         stale_date_value := convert_date_to_int utcnow
         stale_date_ttl := NONE_TTL }, 0)
  | some PyFloat.nan =>
      ({ threshold_value := 0
         threshold_ttl := ttl
         stale_date_value := convert_date_to_int utcnow
         stale_date_ttl := ttl }, 0)
  | some (PyFloat.val q) =>
      ({ threshold_value := q
         threshold_ttl := ttl
         stale_date_value := convert_date_to_int utcnow
         stale_date_ttl := ttl }, q)

/-- The staleness guard of `get_latest_threshold` (line 190):
`(stale_date and int(stale_date) < now) or stale_date is None or
threshold is None`. Redis returns `None` for a missing key; present values
are the stored integer date and the stored threshold string (parsed on use). -/
def threshold_cache_is_stale
    (cached_threshold : Option ℚ) (cached_stale_date : Option Int) (now : Int) : Bool :=
  (match cached_stale_date with
   | some d => decide (d < now)
   | none => false)
    || cached_stale_date.isNone || cached_threshold.isNone

/-- `get_latest_threshold` (lines 177-208). The cache contents, the current
date integer, whether the per-project lock was acquired, and the value a
recomputation would store are passed in. On the stale-or-missing path with
the lock acquired the recomputed value is returned; when the lock is
contended the previously cached value (parsed as a float) is returned when
present, else 0. On the fresh path the cached value is returned directly;
that branch is reached only when the cached threshold exists, so the `none`
arm there is unreachable. -/
def get_latest_threshold
    (cached_threshold : Option ℚ) (cached_stale_date : Option Int)
    (now : Int) (lock_acquired : Bool) (recomputed : ℚ) : ℚ :=
  if threshold_cache_is_stale cached_threshold cached_stale_date now then
    if lock_acquired then
      recomputed
    else
      match cached_threshold with
      | some t => t
      | none => 0
  else
    match cached_threshold with
    | some t => t
    | none => 0

/-! ## Theorems -/

/-- Every field of the error-only catalogue differs from the discriminator
column name type, so a condition on such a field never takes the
event-type special case. -/
theorem error_only_ne_type {f : String} (hf : f ∈ ERROR_ONLY_FIELDS) : f ≠ "type" := by
  intro he
  subst he
  exact absurd hf (by decide)

/-- A matching `Condition` among the top-level entries of the where-clause
makes the top-level scan succeed. -/
theorem check_top_level_of_mem_condition
    {b : QueryBuilder} {lhs : Expr} {op : SnOp} {rhs : Rhs} {ds : Dataset}
    (hmem : WhereClause.condition lhs op rhs ∈ b.whereList)
    (hmatch : check_condition_matches_dataset lhs op rhs ds = true) :
    check_top_level_conditions_match_dataset b ds = true := by
  have h1 : (b.whereList.any fun c => condition_entry_matches c ds) = true :=
    List.any_eq_true.mpr ⟨_, hmem, hmatch⟩
  simp [check_top_level_conditions_match_dataset, h1]

/-- Claim C1: the heuristic decider evaluates the four checks in strict
order — error-events top-level conditions, error-events selected columns,
transaction top-level conditions, transaction selected columns — returning
the label of the first matching check and none when nothing matches; and
whenever an error-only field occurs as a top-level condition column or a
selected column of the errors builder, the result is ERROR_EVENTS whatever
the transactions builder contains. -/
theorem claim_C1_inference_order_and_error_bias
    (errors_builder transactions_builder : QueryBuilder) :
    (dataset_split_decision_inferred_from_query errors_builder transactions_builder =
      (if check_top_level_conditions_match_dataset errors_builder Dataset.Events then
         some DiscoverSavedQueryTypes.ERROR_EVENTS
       else if check_selected_columns_match_dataset errors_builder Dataset.Events then
         some DiscoverSavedQueryTypes.ERROR_EVENTS
       else if check_top_level_conditions_match_dataset transactions_builder
           Dataset.Transactions then
         some DiscoverSavedQueryTypes.TRANSACTION_LIKE
       else if check_selected_columns_match_dataset transactions_builder
           Dataset.Transactions then
         some DiscoverSavedQueryTypes.TRANSACTION_LIKE
       else none))
    ∧ (∀ f ∈ ERROR_ONLY_FIELDS,
        ((∃ op rhs, WhereClause.condition (Expr.column f) op rhs ∈ errors_builder.whereList)
          ∨ Expr.column f ∈ errors_builder.columns) →
        dataset_split_decision_inferred_from_query errors_builder transactions_builder =
          some DiscoverSavedQueryTypes.ERROR_EVENTS) := by
  refine ⟨rfl, ?_⟩
  rintro f hf (⟨op, rhs, hmem⟩ | hcol)
  · have hcond : check_condition_matches_dataset (Expr.column f) op rhs Dataset.Events = true := by
      simp [check_condition_matches_dataset, error_only_ne_type hf,
        check_column_matches_dataset, hf]
    have htop := check_top_level_of_mem_condition hmem hcond
    simp [dataset_split_decision_inferred_from_query, htop]
  · have hsel : check_selected_columns_match_dataset errors_builder Dataset.Events = true := by
      refine List.any_eq_true.mpr ⟨_, hcol, ?_⟩
      simp [check_column_matches_dataset, hf]
    by_cases htop : check_top_level_conditions_match_dataset errors_builder Dataset.Events = true
    · simp [dataset_split_decision_inferred_from_query, htop]
    · simp [dataset_split_decision_inferred_from_query, htop, hsel]

/-- Witness for claim C1: an errors builder filtering on the error-only
column location is classified ERROR_EVENTS even though the transactions
builder selects the transaction-only column duration. -/
theorem claim_C1_witness :
    dataset_split_decision_inferred_from_query
      ⟨[WhereClause.condition (Expr.column "location") SnOp.EQ (Rhs.str "x")], []⟩
      ⟨[], [Expr.column "duration"]⟩ = some DiscoverSavedQueryTypes.ERROR_EVENTS :=
  (claim_C1_inference_order_and_error_bias
      ⟨[WhereClause.condition (Expr.column "location") SnOp.EQ (Rhs.str "x")], []⟩
      ⟨[], [Expr.column "duration"]⟩).2 "location" (by decide)
    (Or.inl ⟨SnOp.EQ, Rhs.str "x", by decide⟩)

/-- Unfolded form of the event-type special case as a disjunction of the two
dataset-specific tests. -/
theorem check_event_type_condition_eq (op : SnOp) (rhs : Rhs) (ds : Dataset) :
    check_event_type_condition op rhs ds =
      (decide (ds = Dataset.Events
          ∧ ((op = SnOp.EQ ∧ rhs = Rhs.str "error")
              ∨ (op = SnOp.NEQ ∧ rhs = Rhs.str "transaction")))
        || decide (ds = Dataset.Transactions ∧ op = SnOp.EQ ∧ rhs = Rhs.str "transaction")) := by
  unfold check_event_type_condition
  split
  · next h => simp [h]
  · next h =>
      split
      · next h2 => simp [h, h2]
      · next h2 => simp [h, h2]

/-- Claim C5: a top-level comparison on the column named type matches the
error-events hint exactly when it is equals error or not-equals transaction,
and matches the transaction hint exactly when it is equals transaction; any
other operator and value combination returns false. Consequently a saved
query whose top-level filter contains type not-equals transaction or type
equals error is classified ERROR_EVENTS with the probe stage never reached
(the returned flag is false and neither probe outcome matters). -/
theorem claim_C5_type_discriminator
    (op : SnOp) (rhs : Rhs)
    (errors_builder transactions_builder : QueryBuilder) (sq : SavedQueryRecord)
    (error_probe transaction_probe : ProbeResult) (dry_run : Bool) :
    (check_condition_matches_dataset (Expr.column "type") op rhs Dataset.Events = true ↔
        ((op = SnOp.EQ ∧ rhs = Rhs.str "error")
          ∨ (op = SnOp.NEQ ∧ rhs = Rhs.str "transaction")))
    ∧ (check_condition_matches_dataset (Expr.column "type") op rhs Dataset.Transactions = true ↔
        (op = SnOp.EQ ∧ rhs = Rhs.str "transaction"))
    ∧ ((WhereClause.condition (Expr.column "type") SnOp.NEQ (Rhs.str "transaction")
            ∈ errors_builder.whereList
          ∨ WhereClause.condition (Expr.column "type") SnOp.EQ (Rhs.str "error")
            ∈ errors_builder.whereList) →
        (get_and_save_split_decision_for_query errors_builder transactions_builder sq
              error_probe transaction_probe dry_run).decision =
            DiscoverSavedQueryTypes.ERROR_EVENTS
          ∧ (get_and_save_split_decision_for_query errors_builder transactions_builder sq
              error_probe transaction_probe dry_run).probed = false) := by
  refine ⟨?_, ?_, ?_⟩
  · simp [check_condition_matches_dataset, check_event_type_condition_eq]
  · simp [check_condition_matches_dataset, check_event_type_condition_eq]
  · intro hmem
    have htop : check_top_level_conditions_match_dataset errors_builder Dataset.Events = true := by
      rcases hmem with hmem | hmem
      · exact check_top_level_of_mem_condition hmem (by decide)
      · exact check_top_level_of_mem_condition hmem (by decide)
    have hinf : dataset_split_decision_inferred_from_query errors_builder transactions_builder =
        some DiscoverSavedQueryTypes.ERROR_EVENTS := by
      simp [dataset_split_decision_inferred_from_query, htop]
    cases dry_run <;>
      simp [get_and_save_split_decision_for_query, hinf]

/-- Witness for claim C5: a filter with the single top-level condition type
not-equals transaction yields ERROR_EVENTS with the probe flag false, here
with probes that would both have reported transaction data. -/
theorem claim_C5_witness :
    (get_and_save_split_decision_for_query
        ⟨[WhereClause.condition (Expr.column "type") SnOp.NEQ (Rhs.str "transaction")], []⟩
        ⟨[], []⟩ ⟨DiscoverSavedQueryTypes.DISCOVER, DatasetSourcesTypes.UNKNOWN⟩
        (ProbeResult.rows 0) (ProbeResult.rows 5) false).decision =
      DiscoverSavedQueryTypes.ERROR_EVENTS
    ∧ (get_and_save_split_decision_for_query
        ⟨[WhereClause.condition (Expr.column "type") SnOp.NEQ (Rhs.str "transaction")], []⟩
        ⟨[], []⟩ ⟨DiscoverSavedQueryTypes.DISCOVER, DatasetSourcesTypes.UNKNOWN⟩
        (ProbeResult.rows 0) (ProbeResult.rows 5) false).probed = false :=
  (claim_C5_type_discriminator SnOp.NEQ (Rhs.str "transaction")
      ⟨[WhereClause.condition (Expr.column "type") SnOp.NEQ (Rhs.str "transaction")], []⟩
      ⟨[], []⟩ ⟨DiscoverSavedQueryTypes.DISCOVER, DatasetSourcesTypes.UNKNOWN⟩
      (ProbeResult.rows 0) (ProbeResult.rows 5) false).2.2 (Or.inl (by decide))

/-- Claim C6: the top-level matcher inspects only depth-0 conditions and the
direct (depth-1) children of top-level And and Or nodes: it succeeds exactly
when such a condition matches, so for any filter tree whose comparison nodes
all sit at depth 2 or deeper (every top-level entry and every direct child of
a top-level And or Or is a non-Condition node) it returns false, and
unmatched node shapes are skipped rather than raising (the matcher is a
total boolean function). -/
theorem claim_C6_top_level_depth_one (b : QueryBuilder) (ds : Dataset) :
    (check_top_level_conditions_match_dataset b ds = true ↔
        ((∃ lhs op rhs, WhereClause.condition lhs op rhs ∈ b.whereList
            ∧ check_condition_matches_dataset lhs op rhs ds = true)
          ∨ (∃ cs, (WhereClause.and_ cs ∈ b.whereList ∨ WhereClause.or_ cs ∈ b.whereList)
              ∧ ∃ lhs op rhs, WhereClause.condition lhs op rhs ∈ cs
                  ∧ check_condition_matches_dataset lhs op rhs ds = true)))
    ∧ ((∀ c ∈ b.whereList, is_condition_node c = false
          ∧ ∀ k ∈ direct_boolean_children c, is_condition_node k = false) →
        check_top_level_conditions_match_dataset b ds = false) := by
  have hiff : check_top_level_conditions_match_dataset b ds = true ↔
      ((∃ lhs op rhs, WhereClause.condition lhs op rhs ∈ b.whereList
          ∧ check_condition_matches_dataset lhs op rhs ds = true)
        ∨ (∃ cs, (WhereClause.and_ cs ∈ b.whereList ∨ WhereClause.or_ cs ∈ b.whereList)
            ∧ ∃ lhs op rhs, WhereClause.condition lhs op rhs ∈ cs
                ∧ check_condition_matches_dataset lhs op rhs ds = true)) := by
    constructor
    · intro h
      rcases Bool.or_eq_true_iff.mp h with h1 | h2
      · rcases List.any_eq_true.mp h1 with ⟨c, hc, hm⟩
        cases c with
        | condition lhs op rhs => exact Or.inl ⟨lhs, op, rhs, hc, hm⟩
        | and_ cs => simp [condition_entry_matches] at hm
        | or_ cs => simp [condition_entry_matches] at hm
        | other => simp [condition_entry_matches] at hm
      · rcases List.any_eq_true.mp h2 with ⟨k, hk, hm⟩
        rcases List.mem_flatMap.mp hk with ⟨c, hc, hkc⟩
        cases k with
        | condition lhs op rhs =>
            refine Or.inr ?_
            cases c with
            | condition l2 o2 r2 => simp [direct_boolean_children] at hkc
            | and_ cs => exact ⟨cs, Or.inl hc, lhs, op, rhs, hkc, hm⟩
            | or_ cs => exact ⟨cs, Or.inr hc, lhs, op, rhs, hkc, hm⟩
            | other => simp [direct_boolean_children] at hkc
        | and_ cs => simp [condition_entry_matches] at hm
        | or_ cs => simp [condition_entry_matches] at hm
        | other => simp [condition_entry_matches] at hm
    · intro h
      apply Bool.or_eq_true_iff.mpr
      rcases h with ⟨lhs, op, rhs, hc, hm⟩ | ⟨cs, hcs, lhs, op, rhs, hkc, hm⟩
      · exact Or.inl (List.any_eq_true.mpr ⟨_, hc, hm⟩)
      · refine Or.inr (List.any_eq_true.mpr ⟨WhereClause.condition lhs op rhs, ?_, hm⟩)
        apply List.mem_flatMap.mpr
        rcases hcs with hcs | hcs
        · exact ⟨WhereClause.and_ cs, hcs, hkc⟩
        · exact ⟨WhereClause.or_ cs, hcs, hkc⟩
  refine ⟨hiff, ?_⟩
  intro hdeep
  apply Bool.eq_false_iff.mpr
  intro htrue
  rcases hiff.mp htrue with ⟨lhs, op, rhs, hc, _⟩ | ⟨cs, hcs, lhs, op, rhs, hkc, _⟩
  · have := (hdeep _ hc).1
    simp [is_condition_node] at this
  · rcases hcs with hcs | hcs
    · have := (hdeep _ hcs).2 (WhereClause.condition lhs op rhs) (by
        simpa [direct_boolean_children] using hkc)
      simp [is_condition_node] at this
    · have := (hdeep _ hcs).2 (WhereClause.condition lhs op rhs) (by
        simpa [direct_boolean_children] using hkc)
      simp [is_condition_node] at this

/-- Witness for claim C6: a tree whose only comparison (on the
transaction-only column duration) is nested two conjunctions deep is not
matched under the transaction hint. -/
theorem claim_C6_witness :
    check_top_level_conditions_match_dataset
      ⟨[WhereClause.and_
          [WhereClause.and_
            [WhereClause.condition (Expr.column "duration") SnOp.GT (Rhs.int 10)]],
        WhereClause.other], []⟩
      Dataset.Transactions = false :=
  (claim_C6_top_level_depth_one
      ⟨[WhereClause.and_
          [WhereClause.and_
            [WhereClause.condition (Expr.column "duration") SnOp.GT (Rhs.int 10)]],
        WhereClause.other], []⟩
      Dataset.Transactions).2 (by decide)

/-- Claim C2: when the heuristic decider is inconclusive the probe phase
decides in order — error data present gives ERROR_EVENTS persisted with
INFERRED provenance, else transaction data present gives TRANSACTION_LIKE
with INFERRED provenance, else ERROR_EVENTS with FORCED provenance — and a
probe failing with the malformed-argument-type or unqualified-query error is
interchangeable with a probe returning zero rows, on either side. -/
theorem claim_C2_probe_phase
    (errors_builder transactions_builder : QueryBuilder) (sq : SavedQueryRecord)
    (error_probe transaction_probe : ProbeResult)
    (h : dataset_split_decision_inferred_from_query errors_builder transactions_builder = none) :
    (probe_has_data error_probe = true →
        (∀ dry_run, (get_and_save_split_decision_for_query errors_builder transactions_builder
            sq error_probe transaction_probe dry_run).decision =
          DiscoverSavedQueryTypes.ERROR_EVENTS)
        ∧ (get_and_save_split_decision_for_query errors_builder transactions_builder
            sq error_probe transaction_probe false).saved_query =
          ⟨DiscoverSavedQueryTypes.ERROR_EVENTS, DatasetSourcesTypes.INFERRED⟩)
    ∧ (probe_has_data error_probe = false → probe_has_data transaction_probe = true →
        (∀ dry_run, (get_and_save_split_decision_for_query errors_builder transactions_builder
            sq error_probe transaction_probe dry_run).decision =
          DiscoverSavedQueryTypes.TRANSACTION_LIKE)
        ∧ (get_and_save_split_decision_for_query errors_builder transactions_builder
            sq error_probe transaction_probe false).saved_query =
          ⟨DiscoverSavedQueryTypes.TRANSACTION_LIKE, DatasetSourcesTypes.INFERRED⟩)
    ∧ (probe_has_data error_probe = false → probe_has_data transaction_probe = false →
        (∀ dry_run, (get_and_save_split_decision_for_query errors_builder transactions_builder
            sq error_probe transaction_probe dry_run).decision =
          DiscoverSavedQueryTypes.ERROR_EVENTS)
        ∧ (get_and_save_split_decision_for_query errors_builder transactions_builder
            sq error_probe transaction_probe false).saved_query =
          ⟨DiscoverSavedQueryTypes.ERROR_EVENTS, DatasetSourcesTypes.FORCED⟩)
    ∧ (∀ dry_run,
        get_and_save_split_decision_for_query errors_builder transactions_builder sq
            ProbeResult.queryIllegalTypeOfArgument transaction_probe dry_run =
          get_and_save_split_decision_for_query errors_builder transactions_builder sq
            (ProbeResult.rows 0) transaction_probe dry_run
        ∧ get_and_save_split_decision_for_query errors_builder transactions_builder sq
            ProbeResult.unqualifiedQueryError transaction_probe dry_run =
          get_and_save_split_decision_for_query errors_builder transactions_builder sq
            (ProbeResult.rows 0) transaction_probe dry_run
        ∧ get_and_save_split_decision_for_query errors_builder transactions_builder sq
            error_probe ProbeResult.queryIllegalTypeOfArgument dry_run =
          get_and_save_split_decision_for_query errors_builder transactions_builder sq
            error_probe (ProbeResult.rows 0) dry_run
        ∧ get_and_save_split_decision_for_query errors_builder transactions_builder sq
            error_probe ProbeResult.unqualifiedQueryError dry_run =
          get_and_save_split_decision_for_query errors_builder transactions_builder sq
            error_probe (ProbeResult.rows 0) dry_run) := by
  refine ⟨?_, ?_, ?_, ?_⟩
  · intro he
    refine ⟨fun dry_run => ?_, ?_⟩
    · cases dry_run <;>
        simp [get_and_save_split_decision_for_query, h, he]
    · simp [get_and_save_split_decision_for_query, h, he, save_split_decision_for_query]
  · intro he ht
    refine ⟨fun dry_run => ?_, ?_⟩
    · cases dry_run <;>
        simp [get_and_save_split_decision_for_query, h, he, ht]
    · simp [get_and_save_split_decision_for_query, h, he, ht, save_split_decision_for_query]
  · intro he ht
    refine ⟨fun dry_run => ?_, ?_⟩
    · cases dry_run <;>
        simp [get_and_save_split_decision_for_query, h, he, ht]
    · simp [get_and_save_split_decision_for_query, h, he, ht, save_split_decision_for_query]
  · intro dry_run
    refine ⟨?_, ?_, ?_, ?_⟩ <;>
      simp [get_and_save_split_decision_for_query, h, probe_has_data]

/-- Witness for claim C2: with no heuristic match, an error probe failing
with the unqualified-query error and a transaction probe returning one row,
a live run lands on TRANSACTION_LIKE with INFERRED provenance. -/
theorem claim_C2_witness :
    (get_and_save_split_decision_for_query ⟨[], []⟩ ⟨[], []⟩
        ⟨DiscoverSavedQueryTypes.DISCOVER, DatasetSourcesTypes.UNKNOWN⟩
        ProbeResult.unqualifiedQueryError (ProbeResult.rows 1) false).saved_query =
      ⟨DiscoverSavedQueryTypes.TRANSACTION_LIKE, DatasetSourcesTypes.INFERRED⟩ :=
  ((claim_C2_probe_phase ⟨[], []⟩ ⟨[], []⟩
      ⟨DiscoverSavedQueryTypes.DISCOVER, DatasetSourcesTypes.UNKNOWN⟩
      ProbeResult.unqualifiedQueryError (ProbeResult.rows 1)
      (by decide)).2.1 (by decide) (by decide)).2

/-- Claim C3: on the forced-default path (heuristics inconclusive, both
probes empty) a dry run logs TRANSACTION_LIKE while a live run persists
ERROR_EVENTS with FORCED provenance; both return ERROR_EVENTS, so the label
a dry run records differs from the label a live run persists. -/
theorem claim_C3_forced_default_log_mismatch
    (errors_builder transactions_builder : QueryBuilder) (sq : SavedQueryRecord)
    (error_probe transaction_probe : ProbeResult)
    (h : dataset_split_decision_inferred_from_query errors_builder transactions_builder = none)
    (he : probe_has_data error_probe = false)
    (ht : probe_has_data transaction_probe = false) :
    (get_and_save_split_decision_for_query errors_builder transactions_builder sq
        error_probe transaction_probe true).logged =
      [DiscoverSavedQueryTypes.TRANSACTION_LIKE]
    ∧ (get_and_save_split_decision_for_query errors_builder transactions_builder sq
        error_probe transaction_probe true).decision = DiscoverSavedQueryTypes.ERROR_EVENTS
    ∧ (get_and_save_split_decision_for_query errors_builder transactions_builder sq
        error_probe transaction_probe false).saved_query.dataset =
      DiscoverSavedQueryTypes.ERROR_EVENTS
    ∧ (get_and_save_split_decision_for_query errors_builder transactions_builder sq
        error_probe transaction_probe false).decision = DiscoverSavedQueryTypes.ERROR_EVENTS
    ∧ (∀ l ∈ (get_and_save_split_decision_for_query errors_builder transactions_builder sq
          error_probe transaction_probe true).logged,
        l ≠ (get_and_save_split_decision_for_query errors_builder transactions_builder sq
          error_probe transaction_probe false).saved_query.dataset) := by
  refine ⟨?_, ?_, ?_, ?_, ?_⟩ <;>
    simp [get_and_save_split_decision_for_query, h, he, ht, save_split_decision_for_query]

/-- Witness for claim C3: empty builders and empty probes exhibit the
dry-run logging of TRANSACTION_LIKE against the live persistence of
ERROR_EVENTS. -/
theorem claim_C3_witness :
    (get_and_save_split_decision_for_query ⟨[], []⟩ ⟨[], []⟩
        ⟨DiscoverSavedQueryTypes.DISCOVER, DatasetSourcesTypes.UNKNOWN⟩
        (ProbeResult.rows 0) (ProbeResult.rows 0) true).logged =
      [DiscoverSavedQueryTypes.TRANSACTION_LIKE] :=
  (claim_C3_forced_default_log_mismatch ⟨[], []⟩ ⟨[], []⟩
      ⟨DiscoverSavedQueryTypes.DISCOVER, DatasetSourcesTypes.UNKNOWN⟩
      (ProbeResult.rows 0) (ProbeResult.rows 0)
      (by decide) (by decide) (by decide)).1

/-- Claim C4: for every classification outcome a dry run leaves the
saved-query record untouched, while a live run persists exactly the decided
label together with an INFERRED or FORCED provenance. -/
theorem claim_C4_dry_run_never_mutates
    (errors_builder transactions_builder : QueryBuilder) (sq : SavedQueryRecord)
    (error_probe transaction_probe : ProbeResult) :
    (get_and_save_split_decision_for_query errors_builder transactions_builder sq
        error_probe transaction_probe true).saved_query = sq
    ∧ (get_and_save_split_decision_for_query errors_builder transactions_builder sq
        error_probe transaction_probe false).saved_query.dataset =
      (get_and_save_split_decision_for_query errors_builder transactions_builder sq
        error_probe transaction_probe false).decision
    ∧ ((get_and_save_split_decision_for_query errors_builder transactions_builder sq
          error_probe transaction_probe false).saved_query.dataset_source =
        DatasetSourcesTypes.INFERRED
      ∨ (get_and_save_split_decision_for_query errors_builder transactions_builder sq
          error_probe transaction_probe false).saved_query.dataset_source =
        DatasetSourcesTypes.FORCED) := by
  rcases hinf : dataset_split_decision_inferred_from_query errors_builder transactions_builder
    with _ | d
  · by_cases he : probe_has_data error_probe = true
    · refine ⟨?_, ?_, ?_⟩ <;>
        simp [get_and_save_split_decision_for_query, hinf, he, save_split_decision_for_query]
    · rw [Bool.not_eq_true] at he
      by_cases ht : probe_has_data transaction_probe = true
      · refine ⟨?_, ?_, ?_⟩ <;>
          simp [get_and_save_split_decision_for_query, hinf, he, ht,
            save_split_decision_for_query]
      · rw [Bool.not_eq_true] at ht
        refine ⟨?_, ?_, ?_⟩ <;>
          simp [get_and_save_split_decision_for_query, hinf, he, ht,
            save_split_decision_for_query]
  · refine ⟨?_, ?_, ?_⟩ <;>
      simp [get_and_save_split_decision_for_query, hinf, save_split_decision_for_query]

/-- Claim C8: `update_threshold` stores 0 with the short 10-minute TTL when
the computation was undetermined, 0 with the normal 48-hour TTL when it was
NaN, and the computed value with the normal TTL otherwise; the recomputation
date key is always set together with the value key under the same TTL, and
the stored numeric value is returned. -/
theorem claim_C8_update_threshold_storage
    (calculated : Option PyFloat) (utcnow : PyDatetime) :
    (calculated = none →
        (update_threshold calculated utcnow).1.threshold_value = 0
        ∧ (update_threshold calculated utcnow).1.threshold_ttl = NONE_TTL)
    ∧ (calculated = some PyFloat.nan →
        (update_threshold calculated utcnow).1.threshold_value = 0
        ∧ (update_threshold calculated utcnow).1.threshold_ttl = DEFAULT_TTL)
    ∧ (∀ q : ℚ, calculated = some (PyFloat.val q) →
        (update_threshold calculated utcnow).1.threshold_value = q
        ∧ (update_threshold calculated utcnow).1.threshold_ttl = DEFAULT_TTL)
    ∧ (update_threshold calculated utcnow).1.stale_date_ttl =
        (update_threshold calculated utcnow).1.threshold_ttl
    ∧ (update_threshold calculated utcnow).1.stale_date_value = convert_date_to_int utcnow
    ∧ (update_threshold calculated utcnow).2 =
        (update_threshold calculated utcnow).1.threshold_value
    ∧ NONE_TTL = 10 * 60
    ∧ DEFAULT_TTL = 48 * 60 * 60 := by
  rcases calculated with _ | f
  · refine ⟨?_, ?_, ?_, ?_, ?_, ?_, rfl, rfl⟩ <;> simp [update_threshold]
  · cases f <;>
      exact ⟨by simp, by simp [update_threshold], by
        intro q hq
        simp_all [update_threshold], by simp [update_threshold], by
        simp [update_threshold], by simp [update_threshold], rfl, rfl⟩

/-- Witness for claim C8: an undetermined computation on 2024-01-02 stores 0
under the short TTL. -/
theorem claim_C8_witness :
    (update_threshold none ⟨2024, 1, 2⟩).1.threshold_value = 0
    ∧ (update_threshold none ⟨2024, 1, 2⟩).1.threshold_ttl = NONE_TTL :=
  (claim_C8_update_threshold_storage none ⟨2024, 1, 2⟩).1 rfl

/-- Claim C9: in the Missing or Stale state (staleness date absent, earlier
than today, or cached value absent) a lookup that fails to acquire the lock
returns the cached value when present and 0 otherwise, without waiting; in
the Fresh state the cached value exists and is returned regardless of lock
and recomputation inputs. -/
theorem claim_C9_lock_contention_fallback
    (cached_threshold : Option ℚ) (cached_stale_date : Option Int) (now : Int) :
    (threshold_cache_is_stale cached_threshold cached_stale_date now = true ↔
        ((∃ d, cached_stale_date = some d ∧ d < now)
          ∨ cached_stale_date = none ∨ cached_threshold = none))
    ∧ (threshold_cache_is_stale cached_threshold cached_stale_date now = true →
        ∀ recomputed : ℚ,
          get_latest_threshold cached_threshold cached_stale_date now false recomputed =
            cached_threshold.getD 0)
    ∧ (threshold_cache_is_stale cached_threshold cached_stale_date now = false →
        cached_threshold.isSome = true
        ∧ ∀ (lock_acquired : Bool) (recomputed : ℚ),
            get_latest_threshold cached_threshold cached_stale_date now
                lock_acquired recomputed =
              cached_threshold.getD 0) := by
  refine ⟨?_, ?_, ?_⟩
  · cases cached_stale_date <;> cases cached_threshold <;>
      simp [threshold_cache_is_stale]
  · intro h recomputed
    cases cached_threshold <;>
      simp [get_latest_threshold, h]
  · intro h
    have hsome : cached_threshold.isSome = true := by
      cases cached_threshold <;> simp_all [threshold_cache_is_stale]
    refine ⟨hsome, ?_⟩
    intro lock_acquired recomputed
    cases cached_threshold <;>
      simp_all [get_latest_threshold, h]

/-- Witness for claim C9: a cached value of 5 with a staleness date of
yesterday and a contended lock is returned unchanged. -/
theorem claim_C9_witness :
    get_latest_threshold (some 5) (some 20230101) 20230102 false 99 = 5 :=
  (claim_C9_lock_contention_fallback (some 5) (some 20230101) 20230102).2.1 (by decide) 99

/-- Claim C10: `convert_date_to_int` is strictly monotone on calendar dates
with four-digit years: the date of d1 precedes the date of d2 exactly when
the converted integers compare with less-than, so the staleness comparison
on converted integers agrees with day-granularity date order across month
and year boundaries. -/
theorem claim_C10_convert_date_to_int_monotone
    (d1 d2 : PyDatetime)
    (hy1 : 1000 ≤ d1.year) (hy1' : d1.year ≤ 9999)
    (hy2 : 1000 ≤ d2.year) (hy2' : d2.year ≤ 9999)
    (hm1 : 1 ≤ d1.month) (hm1' : d1.month ≤ 12)
    (hm2 : 1 ≤ d2.month) (hm2' : d2.month ≤ 12)
    (hd1 : 1 ≤ d1.day) (hd1' : d1.day ≤ 31)
    (hd2 : 1 ≤ d2.day) (hd2' : d2.day ≤ 31) :
    dateBefore d1 d2 ↔ convert_date_to_int d1 < convert_date_to_int d2 := by
  unfold dateBefore convert_date_to_int
  omega

/-- Witness for claim C10: 2023-12-31 precedes 2024-01-01 and the converted
integers 20231231 and 20240101 compare accordingly across the year
boundary. -/
theorem claim_C10_witness :
    convert_date_to_int ⟨2023, 12, 31⟩ < convert_date_to_int ⟨2024, 1, 1⟩ :=
  (claim_C10_convert_date_to_int_monotone ⟨2023, 12, 31⟩ ⟨2024, 1, 1⟩
      (by decide) (by decide) (by decide) (by decide) (by decide) (by decide)
      (by decide) (by decide) (by decide) (by decide) (by decide) (by decide)).mp
    (by unfold dateBefore; decide)

/-- Every group row surviving the having clause has more than one
trailing-week event, a first-seen time more than an hour old, and the rate
given by the if-expression on the one-week boundary. -/
theorem subquery_group_row_some
    {events : List IssuePlatformEvent} {project_id : Nat} {now : Int}
    {g : Nat} {r : RateRow}
    (h : subquery_group_row events project_id now g = some r) :
    1 < r.past_week_event_count
    ∧ r.first_seen < now - 3600
    ∧ r.hourly_event_rate =
        (if r.first_seen < now - 7 * 86400 then
          (r.past_week_event_count : ℚ) / (WEEK_IN_HOURS : ℚ)
        else
          (r.past_week_event_count : ℚ) / ((dateDiffHour r.first_seen now : Int) : ℚ)) := by
  simp only [subquery_group_row] at h
  split at h
  · exact absurd h (by simp)
  · next t ts heq =>
      split at h
      · next hcond =>
          rw [Option.some.injEq] at h
          subst h
          exact ⟨hcond.1, hcond.2, rfl⟩
      · exact absurd h (by simp)

/-- Claim C7: every row of the rate-aggregation query has a trailing-week
event count above 1 and a first-seen time more than an hour before now (the
excluded issues produce no row), its hourly rate is the trailing-week count
divided by min(WEEK_IN_HOURS, age in hours) with that divisor positive, the
rows are ordered by first-seen ascending, and at most 10000 rows are
returned. -/
theorem claim_C7_rate_aggregation_query
    (events : List IssuePlatformEvent) (project_id : Nat) (now : Int) :
    (∀ r ∈ threshold_subquery_rows events project_id now,
        1 < r.past_week_event_count
        ∧ r.first_seen < now - 3600
        ∧ 0 < min (WEEK_IN_HOURS : Int) (dateDiffHour r.first_seen now)
        ∧ r.hourly_event_rate =
            (r.past_week_event_count : ℚ) /
              ((min (WEEK_IN_HOURS : Int) (dateDiffHour r.first_seen now) : Int) : ℚ))
    ∧ List.Sorted rateRowLE (threshold_subquery_rows events project_id now)
    ∧ (threshold_subquery_rows events project_id now).length ≤ 10000 := by
  refine ⟨?_, ?_, ?_⟩
  · intro r hr
    have hr0 : r ∈ (((subquery_where_filter events project_id now).map
        (fun e => e.group_id)).dedup).filterMap
          (subquery_group_row events project_id now) := by
      simp only [threshold_subquery_rows] at hr
      exact (List.perm_insertionSort rateRowLE _).mem_iff.mp (List.mem_of_mem_take hr)
    rcases List.mem_filterMap.mp hr0 with ⟨g, _, hf⟩
    obtain ⟨hcnt, hfs, hrate⟩ := subquery_group_row_some hf
    have hweek : (WEEK_IN_HOURS : Int) = 168 := by norm_num [WEEK_IN_HOURS]
    refine ⟨hcnt, hfs, ?_, ?_⟩
    · rw [hweek]
      by_cases hw : r.first_seen < now - 7 * 86400
      · have hdd : (168 : Int) ≤ dateDiffHour r.first_seen now := by
          unfold dateDiffHour
          omega
        omega
      · have hdd : (1 : Int) ≤ dateDiffHour r.first_seen now := by
          unfold dateDiffHour
          omega
        omega
    · rw [hrate]
      by_cases hw : r.first_seen < now - 7 * 86400
      · have hdd : (168 : Int) ≤ dateDiffHour r.first_seen now := by
          unfold dateDiffHour
          omega
        have hmin : min (WEEK_IN_HOURS : Int) (dateDiffHour r.first_seen now) =
            (WEEK_IN_HOURS : Int) := by
          rw [hweek]
          omega
        rw [if_pos hw, hmin, Int.cast_natCast]
      · have hdd : dateDiffHour r.first_seen now ≤ 168 := by
          unfold dateDiffHour
          omega
        have hmin : min (WEEK_IN_HOURS : Int) (dateDiffHour r.first_seen now) =
            dateDiffHour r.first_seen now := by
          rw [hweek]
          omega
        rw [if_neg hw, hmin]
  · simp only [threshold_subquery_rows]
    exact List.Pairwise.sublist (List.take_sublist _ _)
      (List.sorted_insertionSort rateRowLE _)
  · simp only [threshold_subquery_rows]
    exact List.length_take_le _ _

/-- Witness for claim C7: a table with one group holding two events, two and
three hours old, yields the single row with count 2, first seen three hours
ago and rate 2/3 per hour, satisfying every clause of the theorem at that
row. -/
theorem claim_C7_witness :
    1 < (2 : Nat)
    ∧ (7765200 : Int) < 7776000 - 3600
    ∧ 0 < min (WEEK_IN_HOURS : Int) (dateDiffHour 7765200 7776000)
    ∧ (2 / 3 : ℚ) =
        ((2 : Nat) : ℚ) /
          ((min (WEEK_IN_HOURS : Int) (dateDiffHour 7765200 7776000) : Int) : ℚ) :=
  (claim_C7_rate_aggregation_query [⟨1, 1, 7768800⟩, ⟨1, 1, 7765200⟩] 1 7776000).1
    ⟨1, 7765200, 2, 2 / 3⟩
    (by
      rw [show threshold_subquery_rows [⟨1, 1, 7768800⟩, ⟨1, 1, 7765200⟩] 1 7776000 =
          [⟨1, 7765200, 2, 2 / 3⟩] from rfl]
      exact List.mem_singleton_self _)

end Sentry
